import Mathlib

/-!
Verification of the Lendability rule-evaluation engine.

The repository contains two variants of the engine:

* the "engine" variant (`src/engine/*`, plus the decision and metrics
  modules): dynamically-typed rule predicates over a JS-style value tree,
  a gating prerequisite check, and a precedence-based decision aggregator
  (`decide`);
* the "catalog" variant (`src/src/index.ts`): first-class `Rule` objects
  with a `required` flag and CRITICAL/MAJOR/MINOR fix severities, run by
  `AssessmentEngine.assess`.

Each TypeScript function is embedded as an executable Lean definition.
JavaScript runtime values reachable in this code are modelled by `JsVal`
(numbers carry an explicit NaN case; floating point rounding plays no
role in any property below, so numbers are modelled as rationals).
-/

namespace Engine

/-- A JavaScript number: either NaN or a (rational) numeric value. -/
inductive JsNum where
  | nan : JsNum
  | val (q : ℚ) : JsNum
deriving Repr

/-- JavaScript runtime values reachable in the engine code. -/
inductive JsVal where
  | undefined : JsVal
  | null : JsVal
  | bool (b : Bool) : JsVal
  | num (n : JsNum) : JsVal
  | str (s : String) : JsVal
  | arr (elems : List JsVal) : JsVal
  | obj (fields : List (String × JsVal)) : JsVal

/-- Property access `o[k]` on a value already known to be truthy:
objects look the key up, everything else yields `undefined`. -/
def getProp : JsVal → String → JsVal
  | .obj fs, k => (fs.lookup k).getD .undefined
  | _, _ => .undefined

/-- JavaScript truthiness. -/
def truthy : JsVal → Bool
  | .undefined => false
  | .null => false
  | .bool b => b
  | .num .nan => false
  | .num (.val q) => q != 0
  | .str s => s != ""
  | .arr _ => true
  | .obj _ => true

/-- Splits a character list at `'.'` (accumulator holds the current
segment reversed). Structural recursion keeps it kernel-evaluable. -/
def splitDotAux : List Char → List Char → List String
  | [], acc => [String.mk acc.reverse]
  | c :: cs, acc =>
      if c = '.' then String.mk acc.reverse :: splitDotAux cs []
      else splitDotAux cs (c :: acc)

/-- JS `path.split('.')`. -/
def splitDot (path : String) : List String :=
  splitDotAux path.toList []

/-- `get(obj, path)` from `rules.ts`:
`path.split('.').reduce((o, k) => (o ? o[k] : undefined), obj)`. -/
def get (o : JsVal) (path : String) : JsVal :=
  (splitDot path).foldl (fun o k => if truthy o then getProp o k else .undefined) o

/-- Optional chaining `v?.k`: `undefined` on nullish `v`, else property access. -/
def optChain (v : JsVal) (k : String) : JsVal :=
  match v with
  | .undefined => .undefined
  | .null => .undefined
  | _ => getProp v k

/-- Nullish coalescing `v ?? d`. -/
def nullish (v d : JsVal) : JsVal :=
  match v with
  | .undefined => d
  | .null => d
  | _ => v

/-- JS `Number` on a string, restricted to the string shapes that occur
here: empty string is 0, a plain run of digits is its value, anything
else is NaN. -/
def strToNum (s : String) : JsNum :=
  if s.toList = [] then .val 0
  else if s.toList.all Char.isDigit then
    .val ((s.toList.foldl (fun n c => 10 * n + (c.toNat - 48)) 0 : ℕ) : ℚ)
  else .nan

/-- JS `Number(v)` coercion. Plain objects coerce to NaN. -/
def toNumber : JsVal → JsNum
  | .undefined => .nan
  | .null => .val 0
  | .bool b => .val (if b then 1 else 0)
  | .num n => n
  | .str s => strToNum s
  | .arr _ => .nan
  | .obj _ => .nan

/-- JS subtraction on numbers (NaN propagates). -/
def jsub : JsNum → JsNum → JsNum
  | .val a, .val b => .val (a - b)
  | _, _ => .nan

/-- JS division on numbers. NaN propagates. Every division in the source
sits under a `denominator > 0` guard, so the zero-denominator case is
unreachable; mapping it to NaN keeps the function total. -/
def jdiv : JsNum → JsNum → JsNum
  | .val a, .val b => if b = 0 then .nan else .val (a / b)
  | _, _ => .nan

/-- JS comparison `n > 0` (false on NaN). -/
def jgt0 : JsNum → Bool
  | .nan => false
  | .val q => decide (0 < q)

/-- JS strict equality `v === s` against a string literal. -/
def jstrEq (v : JsVal) (s : String) : Bool :=
  match v with
  | .str t => t == s
  | _ => false

/-- JS strict equality `v === true`. -/
def jsTrue : JsVal → Bool
  | .bool b => b
  | _ => false

/-- `computeMetrics` from the metrics module: derives the six named
metrics; each source field is read as `Number(input?.section?.field ?? 0)`
and each ratio is `denominator > 0 ? formula : null`. -/
def computeMetrics (input : JsVal) : JsVal :=
  let gdv := toNumber (nullish (optChain (optChain input "appraisal") "gdv") (.num (.val 0)))
  let totalCost := toNumber (nullish (optChain (optChain input "appraisal") "total_cost") (.num (.val 0)))
  let equity := toNumber (nullish (optChain (optChain input "appraisal") "equity") (.num (.val 0)))
  let buildCost := toNumber (nullish (optChain (optChain input "appraisal") "build_cost") (.num (.val 0)))
  let contingency := toNumber (nullish (optChain (optChain input "appraisal") "contingency") (.num (.val 0)))
  let units := toNumber (nullish (optChain (optChain input "scheme") "units") (.num (.val 0)))
  let buildMonths := toNumber (nullish (optChain (optChain input "programme") "build_months") (.num (.val 0)))
  .obj [
    ("margin_on_cost", if jgt0 totalCost then .num (jdiv (jsub gdv totalCost) totalCost) else .null),
    ("margin_on_gdv", if jgt0 gdv then .num (jdiv (jsub gdv totalCost) gdv) else .null),
    ("ltc", if jgt0 totalCost then .num (jdiv (jsub totalCost equity) totalCost) else .null),
    ("ltgdv", if jgt0 gdv then .num (jdiv (jsub totalCost equity) gdv) else .null),
    ("contingency_pct", if jgt0 buildCost then .num (jdiv contingency buildCost) else .null),
    ("build_months_per_unit", if jgt0 units then .num (jdiv buildMonths units) else .null)
  ]

/-- `Severity` from `types.ts`. -/
inductive Severity where
  | FATAL : Severity
  | FIXABLE : Severity
deriving DecidableEq, Repr

/-- The optional workflow status literal `'GATING'` from `types.ts`. -/
inductive WStatus where
  | GATING : WStatus
deriving DecidableEq, Repr

/-- `Verdict` from `types.ts`. -/
inductive Verdict where
  | MEETS_SME_LENDER_CRITERIA : Verdict
  | NOT_YET_LENDABLE : Verdict
deriving DecidableEq, Repr

/-- `VerdictStatus` from `types.ts`. -/
inductive VerdictStatus where
  | PASS : VerdictStatus
  | FIXABLE : VerdictStatus
  | FATAL : VerdictStatus
  | GATING : VerdictStatus
deriving DecidableEq, Repr

/-- `RuleFailure` from `types.ts`. -/
structure RuleFailure where
  ruleId : String
  severity : Severity
  status : Option WStatus := none
  category : String
  reason : String
  fix : String
  evidence : List (String × JsVal) := []

/-- The `meta` argument shared by the rule predicates in `rules.ts`. -/
structure RuleMeta where
  id : String
  severity : Severity
  category : String
  reason : String
  fix : String

/-- `failure` from `rules.ts`: builds a `RuleFailure` with an evidence
snapshot of the field read. -/
def failure (ctx : JsVal) (field : String) (m : RuleMeta) : RuleFailure :=
  { ruleId := m.id, severity := m.severity, category := m.category,
    reason := m.reason, fix := m.fix, evidence := [(field, get ctx field)] }

/-- `thresholdMin` from `rules.ts`:
`if (typeof value === 'number' && value >= min) return null; return failure(...)`.
NaN has `typeof 'number'` but fails the comparison, so it also fails. -/
def thresholdMin (ctx : JsVal) (field : String) (min : ℚ) (m : RuleMeta) :
    Option RuleFailure :=
  match get ctx field with
  | .num (.val q) => if min ≤ q then none else some (failure ctx field m)
  | _ => some (failure ctx field m)

/-- `thresholdMax` from `rules.ts`:
`if (typeof value === 'number' && value <= max) return null; return failure(...)`. -/
def thresholdMax (ctx : JsVal) (field : String) (max : ℚ) (m : RuleMeta) :
    Option RuleFailure :=
  match get ctx field with
  | .num (.val q) => if q ≤ max then none else some (failure ctx field m)
  | _ => some (failure ctx field m)

/-- `prereqPlanningStage` from `rules.ts` (returns a list of failures
tagged with the GATING workflow status). -/
def prereqPlanningStage (input : JsVal) : List RuleFailure :=
  let stage := optChain (getProp input "planning") "stage"
  let hasTdc := jsTrue (optChain (getProp input "planning") "hasTdc")
  if !truthy stage || jstrEq stage "NONE" || jstrEq stage "PRE_APP" then
    [{ ruleId := "PREREQ_PLANNING_STAGE", severity := .FIXABLE, status := some .GATING,
       category := "INPUT",
       reason := "Planning stage insufficient for underwriting (need at least Outline, Full, or PiP with TDC).",
       fix := "Secure at least Outline consent or PiP with TDC before re-submission." }]
  else if jstrEq stage "PIP" && !hasTdc then
    [{ ruleId := "PREREQ_PLANNING_STAGE", severity := .FIXABLE, status := some .GATING,
       category := "INPUT",
       reason := "PiP without Technical Details Consent (TDC) is insufficient for underwriting.",
       fix := "Provide TDC evidence or progress to Outline/Full consent." }]
  else []

/-- `MainstreamBands` from `bands.ts`. -/
structure MainstreamBands where
  min_margin_on_cost : ℚ
  min_contingency_pct : ℚ
  max_ltgdv : ℚ
  max_ltc : ℚ
  max_build_months_per_unit : ℚ
  allowed_planning_statuses : List String

/-- `SME_MAINSTREAM_BANDS_V1` from `bands.ts`. -/
def SME_MAINSTREAM_BANDS_V1 : MainstreamBands :=
  { min_margin_on_cost := 0.15
    min_contingency_pct := 0.05
    max_ltgdv := 0.65
    max_ltc := 0.85
    max_build_months_per_unit := 2.5
    allowed_planning_statuses := ["FULL", "OUTLINE", "RESERVED_MATTERS"] }

/-- The `bands` field of the evaluation context as a JS value. -/
def bandsToJs (b : MainstreamBands) : JsVal :=
  .obj [
    ("min_margin_on_cost", .num (.val b.min_margin_on_cost)),
    ("min_contingency_pct", .num (.val b.min_contingency_pct)),
    ("max_ltgdv", .num (.val b.max_ltgdv)),
    ("max_ltc", .num (.val b.max_ltc)),
    ("max_build_months_per_unit", .num (.val b.max_build_months_per_unit)),
    ("allowed_planning_statuses", .arr (b.allowed_planning_statuses.map .str))
  ]

/-- A runtime element of the evaluator's `failures` array. The code is
typed as `RuleFailure[]`, but `evaluateDetailed` pushes the ARRAY
returned by `prereqPlanningStage` as one element (no spread), so at
runtime an element is either a genuine failure object or an array of
failure objects. -/
inductive FailEntry where
  | single (f : RuleFailure) : FailEntry
  | arr (fs : List RuleFailure) : FailEntry

/-- JS property read `f.status` on a failure-list element: an array has
no such property (reads as `undefined`, here `none`). -/
def FailEntry.statusProp : FailEntry → Option WStatus
  | .single f => f.status
  | .arr _ => none

/-- JS property read `f.severity` on a failure-list element. -/
def FailEntry.severityProp : FailEntry → Option Severity
  | .single f => some f.severity
  | .arr _ => none

/-- `decide` from the decision module: fixed precedence
GATING > FATAL > FIXABLE > PASS, then the verdict mapping. -/
def decide (failures : List FailEntry) : Verdict × VerdictStatus :=
  let status : VerdictStatus :=
    if failures.any (fun f => f.statusProp == some .GATING) then .GATING
    else if failures.any (fun f => f.severityProp == some .FATAL) then .FATAL
    else if failures.any (fun f => f.severityProp == some .FIXABLE) then .FIXABLE
    else .PASS
  let verdict : Verdict :=
    if status = .PASS then .MEETS_SME_LENDER_CRITERIA else .NOT_YET_LENDABLE
  (verdict, status)

/-- `EvaluationResult` from `types.ts`. -/
structure EvaluationResult where
  verdict : Verdict
  status : VerdictStatus
  failures : List FailEntry

/-- `EvaluationDebug` from `types.ts`. -/
structure EvaluationDebug where
  metrics : JsVal

/-- `EvaluationOutput` from `types.ts`. -/
structure EvaluationOutput where
  result : EvaluationResult
  debug : Option EvaluationDebug := none

/-- `evaluateDetailed` from `evaluator.ts`. The planning-gate group is
appended exactly as the source does: `failures.push(planningGate)` adds
the returned array as ONE element (an array is always truthy, so the
`if (planningGate)` guard never filters it); the FATAL and FIXABLE
groups are appended failure by failure. -/
def evaluateDetailed (input : JsVal) (bands : MainstreamBands) : EvaluationOutput :=
  let metrics := computeMetrics input
  let ctx : JsVal := .obj [("input", input), ("metrics", metrics), ("bands", bandsToJs bands)]
  let planningGate := prereqPlanningStage input
  let failures1 : List FailEntry := [.arr planningGate]
  let fatalMetricRules : List (Option RuleFailure) := [
    thresholdMin ctx "metrics.margin_on_cost" bands.min_margin_on_cost
      ⟨"FIN-014", .FATAL, "METRIC", "Margin on cost below mainstream lender minimum.",
       "Increase GDV, reduce costs, or inject more equity."⟩,
    thresholdMax ctx "metrics.ltgdv" bands.max_ltgdv
      ⟨"FIN-030", .FATAL, "METRIC", "LTGDV above mainstream lender maximum.",
       "Increase equity, reduce total cost, or reduce leverage requested."⟩,
    thresholdMax ctx "metrics.ltc" bands.max_ltc
      ⟨"FIN-031", .FATAL, "METRIC", "LTC above mainstream lender maximum.",
       "Increase equity or reduce total cost to meet leverage band."⟩]
  let failures2 := failures1 ++ (fatalMetricRules.filterMap id).map .single
  let fixableRules : List (Option RuleFailure) := [
    thresholdMin ctx "metrics.contingency_pct" bands.min_contingency_pct
      ⟨"FIN-021", .FIXABLE, "METRIC", "Contingency allowance below mainstream expectations.",
       "Increase contingency to at least 5–7% of build cost and re-run."⟩,
    thresholdMax ctx "metrics.build_months_per_unit" bands.max_build_months_per_unit
      ⟨"PRG-010", .FIXABLE, "STRUCTURAL", "Build programme appears slow for unit count.",
       "Provide a detailed build programme or adjust timeline assumptions."⟩]
  let failures3 := failures2 ++ (fixableRules.filterMap id).map .single
  let vs := decide failures3
  { result := { verdict := vs.1, status := vs.2, failures := failures3 },
    debug := some { metrics := metrics } }

/-- `evaluate` from `evaluator.ts`. -/
def evaluate (input : JsVal) (bands : MainstreamBands) : EvaluationResult :=
  (evaluateDetailed input bands).result

end Engine

namespace Sme

/-- `FixSeverity` from the catalog variant's types. -/
inductive FixSeverity where
  | CRITICAL : FixSeverity
  | MAJOR : FixSeverity
  | MINOR : FixSeverity
deriving DecidableEq, Repr

/-- `Verdict` (APPROVED/REJECTED) from the catalog variant's types. -/
inductive Verdict where
  | APPROVED : Verdict
  | REJECTED : Verdict
deriving DecidableEq, Repr

/-- `SchemeData.info`. -/
structure SchemeInfo where
  name : String
  type : String
  location : String
deriving DecidableEq, Repr

/-- `SchemeData.financials`. -/
structure Financials where
  totalCost : ℚ
  landCost : ℚ
  buildCost : ℚ
  gdv : ℚ
  equity : ℚ
  loanAmount : ℚ
deriving DecidableEq, Repr

/-- `SchemeData.development`. -/
structure Development where
  units : ℚ
  squareFeet : ℚ
  constructionPeriod : ℚ
deriving DecidableEq, Repr

/-- `SchemeData.developer`. -/
structure Developer where
  name : String
  experienceYears : ℚ
  completedProjects : ℚ
  defaultHistory : Bool
deriving DecidableEq, Repr

/-- Optional AI scores (`aiScores?: { documentQuality?: number }`). -/
structure AiScores where
  documentQuality : Option ℚ := none
deriving DecidableEq, Repr

/-- `SchemeData` from the catalog variant's types (shape as used by the
rules and tests; the original type declaration file is not in the tree). -/
structure SchemeData where
  schemeId : String
  info : SchemeInfo
  financials : Financials
  development : Development
  developer : Developer
  aiScores : Option AiScores := none
deriving DecidableEq, Repr

/-- `RuleContext` (the context passed to every rule). -/
structure RuleContext where
  scheme : SchemeData
deriving DecidableEq, Repr

/-- The fix object attached to a failed `RuleResult` (before `assess`
adds the `ruleId`). The `description`/`expected`/`actual` fields are
presentation strings; `toFixed(2)` formatting is abstracted by `fmtQ`. -/
structure FixInfo where
  id : String
  severity : FixSeverity
  description : String
  field : String
  expected : String
  actual : String
deriving DecidableEq, Repr

/-- A fix as emitted by `assess`: the rule's fix plus the `ruleId`. -/
structure Fix where
  id : String
  severity : FixSeverity
  description : String
  field : String
  expected : String
  actual : String
  ruleId : String
deriving DecidableEq, Repr

/-- `RuleResult` returned by a rule's `evaluate`. -/
structure RuleResult where
  ruleId : String
  passed : Bool
  fix : Option FixInfo := none
deriving DecidableEq, Repr

/-- `Rule` from the catalog variant's types. -/
structure Rule where
  id : String
  name : String
  category : String
  description : String
  required : Bool
  weight : ℕ
  evaluate : RuleContext → RuleResult

/-- Stand-in for the JS number-to-string display conversions
(`x.toFixed(2)`, template literals). The exact text never matters to a
decision, only to presentation. -/
def fmtQ (q : ℚ) : String :=
  toString q

/-- `calculateLTV` from `smeRules.ts`. -/
def calculateLTV (context : RuleContext) : ℚ :=
  let f := context.scheme.financials
  if 0 < f.gdv then f.loanAmount / f.gdv * 100 else 0

/-- `calculateLTC` from `smeRules.ts`. -/
def calculateLTC (context : RuleContext) : ℚ :=
  let f := context.scheme.financials
  if 0 < f.totalCost then f.loanAmount / f.totalCost * 100 else 0

def MAX_LTV_PERCENT : ℚ := 70
def MAX_LTC_PERCENT : ℚ := 75
def MIN_EQUITY_PERCENT : ℚ := 25
def MIN_GDV_TO_COST_PERCENT : ℚ := 120
def MIN_DEVELOPER_EXPERIENCE_YEARS : ℚ := 3
def MIN_COMPLETED_PROJECTS : ℚ := 2
def MAX_CONSTRUCTION_PERIOD_MONTHS : ℚ := 24
def MIN_UNITS : ℚ := 2
def MIN_SQUARE_FEET : ℚ := 5000
def MIN_DOCUMENT_QUALITY_SCORE : ℚ := 70

/-- Rule FIN-001 (maximum LTV ratio) from `smeRules.ts`. -/
def FIN001 : Rule :=
  { id := "FIN-001", name := "Maximum LTV Ratio", category := "financial",
    description := "Loan-to-Value ratio must not exceed 70%",
    required := true, weight := 10,
    evaluate := fun context =>
      let ltv := calculateLTV context
      if ltv ≤ MAX_LTV_PERCENT then { ruleId := "FIN-001", passed := true }
      else
        { ruleId := "FIN-001", passed := false,
          fix := some { id := context.scheme.schemeId ++ "-FIN-001", severity := .CRITICAL,
                        description := "LTV ratio exceeds maximum allowed (70%)",
                        field := "financials.loanAmount",
                        expected := "LTV ≤ 70%", actual := fmtQ ltv ++ "%" } } }

/-- Rule FIN-002 (maximum LTC ratio) from `smeRules.ts`. -/
def FIN002 : Rule :=
  { id := "FIN-002", name := "Maximum LTC Ratio", category := "financial",
    description := "Loan-to-Cost ratio must not exceed 75%",
    required := true, weight := 10,
    evaluate := fun context =>
      let ltc := calculateLTC context
      if ltc ≤ MAX_LTC_PERCENT then { ruleId := "FIN-002", passed := true }
      else
        { ruleId := "FIN-002", passed := false,
          fix := some { id := context.scheme.schemeId ++ "-FIN-002", severity := .CRITICAL,
                        description := "LTC ratio exceeds maximum allowed (75%)",
                        field := "financials.loanAmount",
                        expected := "LTC ≤ 75%", actual := fmtQ ltc ++ "%" } } }

/-- Rule FIN-003 (minimum equity contribution) from `smeRules.ts`. -/
def FIN003 : Rule :=
  { id := "FIN-003", name := "Minimum Equity Contribution", category := "financial",
    description := "Minimum 25% equity contribution required",
    required := true, weight := 9,
    evaluate := fun context =>
      let f := context.scheme.financials
      let equityPercent := if 0 < f.totalCost then f.equity / f.totalCost * 100 else 0
      if MIN_EQUITY_PERCENT ≤ equityPercent then { ruleId := "FIN-003", passed := true }
      else
        { ruleId := "FIN-003", passed := false,
          fix := some { id := context.scheme.schemeId ++ "-FIN-003", severity := .CRITICAL,
                        description := "Equity contribution below minimum required (25%)",
                        field := "financials.equity",
                        expected := "Equity ≥ 25%", actual := fmtQ equityPercent ++ "%" } } }

/-- Rule FIN-004 (minimum GDV-to-cost ratio) from `smeRules.ts`.
Required, but its fix carries MAJOR (not CRITICAL) severity. -/
def FIN004 : Rule :=
  { id := "FIN-004", name := "Minimum GDV-to-Cost Ratio", category := "financial",
    description := "GDV must be at least 120% of total cost (profit margin)",
    required := true, weight := 8,
    evaluate := fun context =>
      let f := context.scheme.financials
      let gdvRatio := if 0 < f.totalCost then f.gdv / f.totalCost * 100 else 0
      if MIN_GDV_TO_COST_PERCENT ≤ gdvRatio then { ruleId := "FIN-004", passed := true }
      else
        { ruleId := "FIN-004", passed := false,
          fix := some { id := context.scheme.schemeId ++ "-FIN-004", severity := .MAJOR,
                        description := "GDV-to-Cost ratio below minimum (120%)",
                        field := "financials.gdv",
                        expected := "GDV/Cost ≥ 120%", actual := fmtQ gdvRatio ++ "%" } } }

/-- Rule EXP-001 (minimum developer experience) from `smeRules.ts`. -/
def EXP001 : Rule :=
  { id := "EXP-001", name := "Minimum Developer Experience", category := "experience",
    description := "Developer must have at least 3 years of experience",
    required := true, weight := 8,
    evaluate := fun context =>
      let years := context.scheme.developer.experienceYears
      if MIN_DEVELOPER_EXPERIENCE_YEARS ≤ years then { ruleId := "EXP-001", passed := true }
      else
        { ruleId := "EXP-001", passed := false,
          fix := some { id := context.scheme.schemeId ++ "-EXP-001", severity := .CRITICAL,
                        description := "Developer experience below minimum (3 years)",
                        field := "developer.experienceYears",
                        expected := "Experience ≥ 3 years", actual := fmtQ years ++ " years" } } }

/-- Rule EXP-002 (completed projects track record) from `smeRules.ts`. -/
def EXP002 : Rule :=
  { id := "EXP-002", name := "Completed Projects Track Record", category := "experience",
    description := "Developer must have completed at least 2 similar projects",
    required := true, weight := 7,
    evaluate := fun context =>
      let projects := context.scheme.developer.completedProjects
      if MIN_COMPLETED_PROJECTS ≤ projects then { ruleId := "EXP-002", passed := true }
      else
        { ruleId := "EXP-002", passed := false,
          fix := some { id := context.scheme.schemeId ++ "-EXP-002", severity := .CRITICAL,
                        description := "Completed projects below minimum (2)",
                        field := "developer.completedProjects",
                        expected := "Completed projects ≥ 2", actual := fmtQ projects } } }

/-- Rule EXP-003 (no default history) from `smeRules.ts`. -/
def EXP003 : Rule :=
  { id := "EXP-003", name := "No Default History", category := "experience",
    description := "Developer must have no default history",
    required := true, weight := 10,
    evaluate := fun context =>
      if !context.scheme.developer.defaultHistory then { ruleId := "EXP-003", passed := true }
      else
        { ruleId := "EXP-003", passed := false,
          fix := some { id := context.scheme.schemeId ++ "-EXP-003", severity := .CRITICAL,
                        description := "Developer has default history",
                        field := "developer.defaultHistory",
                        expected := "No default history",
                        actual := "Default history present" } } }

/-- Rule DEV-001 (maximum construction period) from `smeRules.ts`. -/
def DEV001 : Rule :=
  { id := "DEV-001", name := "Maximum Construction Period", category := "development",
    description := "Construction period must not exceed 24 months",
    required := true, weight := 6,
    evaluate := fun context =>
      let period := context.scheme.development.constructionPeriod
      if period ≤ MAX_CONSTRUCTION_PERIOD_MONTHS then { ruleId := "DEV-001", passed := true }
      else
        { ruleId := "DEV-001", passed := false,
          fix := some { id := context.scheme.schemeId ++ "-DEV-001", severity := .MAJOR,
                        description := "Construction period exceeds maximum (24 months)",
                        field := "development.constructionPeriod",
                        expected := "Period ≤ 24 months", actual := fmtQ period ++ " months" } } }

/-- Rule DEV-002 (minimum project size) from `smeRules.ts`. -/
def DEV002 : Rule :=
  { id := "DEV-002", name := "Minimum Project Size", category := "development",
    description := "Project must have at least 2 units or 5000 sq ft",
    required := true, weight := 5,
    evaluate := fun context =>
      let d := context.scheme.development
      if MIN_UNITS ≤ d.units ∨ MIN_SQUARE_FEET ≤ d.squareFeet then
        { ruleId := "DEV-002", passed := true }
      else
        { ruleId := "DEV-002", passed := false,
          fix := some { id := context.scheme.schemeId ++ "-DEV-002", severity := .MAJOR,
                        description := "Project size below minimum (2 units or 5000 sq ft)",
                        field := "development",
                        expected := "Units ≥ 2 OR Square Feet ≥ 5000",
                        actual := fmtQ d.units ++ " units, " ++ fmtQ d.squareFeet ++ " sq ft" } } }

/-- Rule DOC-001 (AI document quality score) from `smeRules.ts`:
`context.scheme.aiScores?.documentQuality`; if the score is undefined
the rule passes by default (AI is optional). -/
def DOC001 : Rule :=
  { id := "DOC-001", name := "Document Quality Score", category := "document",
    description := "AI-assessed document quality must be at least 70/100",
    required := false, weight := 3,
    evaluate := fun context =>
      let documentQuality := context.scheme.aiScores.bind AiScores.documentQuality
      match documentQuality with
      | none => { ruleId := "DOC-001", passed := true }
      | some dq =>
        if MIN_DOCUMENT_QUALITY_SCORE ≤ dq then { ruleId := "DOC-001", passed := true }
        else
          { ruleId := "DOC-001", passed := false,
            fix := some { id := context.scheme.schemeId ++ "-DOC-001", severity := .MINOR,
                          description := "Document quality score below threshold (70/100)",
                          field := "aiScores.documentQuality",
                          expected := "Score ≥ 70", actual := fmtQ dq } } }

/-- `smeRules` from `smeRules.ts`. -/
def smeRules : List Rule :=
  [FIN001, FIN002, FIN003, FIN004, EXP001, EXP002, EXP003, DEV001, DEV002, DOC001]

/-- `summary` of an `AssessmentResult`. -/
structure Summary where
  totalRules : ℕ
  passedRules : ℕ
  failedRules : ℕ
deriving DecidableEq, Repr

/-- `AssessmentResult` (the `timestamp: new Date()` field is an external
clock read and is not modelled). -/
structure AssessmentResult where
  verdict : Verdict
  fixes : List Fix
  summary : Summary
deriving DecidableEq, Repr

/-- The rule-execution loop of `AssessmentEngine.assess`: one result per
rule, and `if (!result.passed && result.fix)` a fix (with the rule's id
attached) is pushed. -/
def runRules (context : RuleContext) : List Rule → List RuleResult × List Fix
  | [] => ([], [])
  | rule :: rest =>
    let result := rule.evaluate context
    let acc := runRules context rest
    (result :: acc.1,
      (match result.passed, result.fix with
       | false, some f =>
          [{ id := f.id, severity := f.severity, description := f.description,
             field := f.field, expected := f.expected, actual := f.actual,
             ruleId := rule.id }]
       | _, _ => []) ++ acc.2)

/-- The severity rank used by the fix sort in `assess`
(CRITICAL 0, MAJOR 1, MINOR 2). -/
def severityOrder : FixSeverity → ℕ
  | .CRITICAL => 0
  | .MAJOR => 1
  | .MINOR => 2

/-- `AssessmentEngine.assess`: runs every rule, computes the summary,
derives the verdict from whether any emitted fix has CRITICAL severity,
and sorts the fixes by severity rank (JS `Array.prototype.sort` is
stable; modelled by `mergeSort`). -/
def assess (rules : List Rule) (scheme : SchemeData) : AssessmentResult :=
  let context : RuleContext := { scheme := scheme }
  let results := (runRules context rules).1
  let fixes := (runRules context rules).2
  let totalRules := results.length
  let passedRules := (results.filter (fun r => r.passed)).length
  let failedRules := totalRules - passedRules
  let criticalFailures := fixes.filter (fun f => f.severity == .CRITICAL)
  let verdict : Verdict := if criticalFailures.length = 0 then .APPROVED else .REJECTED
  { verdict := verdict,
    fixes := fixes.mergeSort (fun a b => severityOrder a.severity ≤ severityOrder b.severity),
    summary := { totalRules := totalRules, passedRules := passedRules,
                 failedRules := failedRules } }

end Sme

section DecisionAggregator

/-- `List.any` is invariant under permutation. -/
lemma list_any_perm {α : Type} {l l' : List α} (h : l.Perm l') (p : α → Bool) :
    l.any p = l'.any p := by
  rcases hx : l.any p <;> rcases hy : l'.any p <;> try rfl
  · simp only [List.any_eq_false] at hx
    simp only [List.any_eq_true] at hy
    obtain ⟨a, ha, hpa⟩ := hy
    exact absurd hpa (by simpa using hx a (h.mem_iff.mpr ha))
  · simp only [List.any_eq_false] at hy
    simp only [List.any_eq_true] at hx
    obtain ⟨a, ha, hpa⟩ := hx
    exact absurd hpa (by simpa using hy a (h.mem_iff.mp ha))

/-- The GATING scan of `decide`, on a list of genuine failure objects,
is exactly "some failure carries workflow status GATING". -/
lemma any_gating_iff (l : List Engine.RuleFailure) :
    ((l.map Engine.FailEntry.single).any fun e => e.statusProp == some .GATING) = true ↔
      ∃ f ∈ l, f.status = some Engine.WStatus.GATING := by
  simp [List.any_map, List.any_eq_true, Engine.FailEntry.statusProp, Function.comp]

/-- The FATAL scan of `decide` on genuine failure objects. -/
lemma any_fatal_iff (l : List Engine.RuleFailure) :
    ((l.map Engine.FailEntry.single).any fun e => e.severityProp == some .FATAL) = true ↔
      ∃ f ∈ l, f.severity = Engine.Severity.FATAL := by
  simp [List.any_map, List.any_eq_true, Engine.FailEntry.severityProp, Function.comp]

/-- The FIXABLE scan of `decide` on genuine failure objects. -/
lemma any_fixable_iff (l : List Engine.RuleFailure) :
    ((l.map Engine.FailEntry.single).any fun e => e.severityProp == some .FIXABLE) = true ↔
      ∃ f ∈ l, f.severity = Engine.Severity.FIXABLE := by
  simp [List.any_map, List.any_eq_true, Engine.FailEntry.severityProp, Function.comp]

/-- `decide` is invariant under permutation of its failure list. -/
lemma decide_perm {es es' : List Engine.FailEntry} (h : es.Perm es') :
    Engine.decide es = Engine.decide es' := by
  simp only [Engine.decide,
    list_any_perm h (fun f => f.statusProp == some .GATING),
    list_any_perm h (fun f => f.severityProp == some .FATAL),
    list_any_perm h (fun f => f.severityProp == some .FIXABLE)]

/-- Every failure object has severity FATAL or FIXABLE, so a non-empty
failure list always trips one of the severity scans. -/
lemma nonempty_has_severity (l : List Engine.RuleFailure) (h : l ≠ []) :
    (∃ f ∈ l, f.severity = Engine.Severity.FATAL) ∨
      (∃ f ∈ l, f.severity = Engine.Severity.FIXABLE) := by
  cases l with
  | nil => exact absurd rfl h
  | cons f t =>
    cases hs : f.severity
    · exact Or.inl ⟨f, by simp, hs⟩
    · exact Or.inr ⟨f, by simp, hs⟩

/-- The status component of `decide`, as a chain of conditionals. -/
lemma decide_status_eq (es : List Engine.FailEntry) :
    (Engine.decide es).2 =
      if es.any (fun f => f.statusProp == some .GATING) then .GATING
      else if es.any (fun f => f.severityProp == some .FATAL) then .FATAL
      else if es.any (fun f => f.severityProp == some .FIXABLE) then .FIXABLE
      else .PASS := rfl

/-- The verdict component of `decide` in terms of the status component. -/
lemma decide_verdict_eq (es : List Engine.FailEntry) :
    (Engine.decide es).1 =
      if (Engine.decide es).2 = .PASS then .MEETS_SME_LENDER_CRITERIA
      else .NOT_YET_LENDABLE := rfl

/-- Status is GATING exactly when some failure carries GATING. -/
lemma decide_status_gating (l : List Engine.RuleFailure) :
    (Engine.decide (l.map .single)).2 = .GATING ↔
      ∃ f ∈ l, f.status = some Engine.WStatus.GATING := by
  rw [decide_status_eq]
  cases hg : (l.map Engine.FailEntry.single).any (fun f => f.statusProp == some .GATING) with
  | true => simpa [hg] using (any_gating_iff l).mp hg
  | false =>
    have hne : ¬ ∃ f ∈ l, f.status = some Engine.WStatus.GATING := fun hE => by
      rw [(any_gating_iff l).mpr hE] at hg; exact Bool.true_eq_false.mp hg
    simp only [hg, Bool.false_eq_true, if_false]
    split_ifs <;> simp [hne]

/-- Status is FATAL exactly when no GATING failure exists but some
failure has severity FATAL. -/
lemma decide_status_fatal (l : List Engine.RuleFailure) :
    (Engine.decide (l.map .single)).2 = .FATAL ↔
      (¬ ∃ f ∈ l, f.status = some Engine.WStatus.GATING) ∧
        ∃ f ∈ l, f.severity = Engine.Severity.FATAL := by
  rw [decide_status_eq]
  cases hg : (l.map Engine.FailEntry.single).any (fun f => f.statusProp == some .GATING) with
  | true => simp [hg, (any_gating_iff l).mp hg]
  | false =>
    have hgn : ¬ ∃ f ∈ l, f.status = some Engine.WStatus.GATING := fun hE => by
      rw [(any_gating_iff l).mpr hE] at hg; exact Bool.true_eq_false.mp hg
    cases hf : (l.map Engine.FailEntry.single).any (fun f => f.severityProp == some .FATAL) with
    | true => simp [hg, hf, hgn, (any_fatal_iff l).mp hf]
    | false =>
      have hfn : ¬ ∃ f ∈ l, f.severity = Engine.Severity.FATAL := fun hE => by
        rw [(any_fatal_iff l).mpr hE] at hf; exact Bool.true_eq_false.mp hf
      simp only [hg, hf, Bool.false_eq_true, if_false]
      split_ifs <;> simp [hfn]

/-- Status is FIXABLE exactly when no GATING and no FATAL failure
exists but some failure has severity FIXABLE. -/
lemma decide_status_fixable (l : List Engine.RuleFailure) :
    (Engine.decide (l.map .single)).2 = .FIXABLE ↔
      (¬ ∃ f ∈ l, f.status = some Engine.WStatus.GATING) ∧
        (¬ ∃ f ∈ l, f.severity = Engine.Severity.FATAL) ∧
        ∃ f ∈ l, f.severity = Engine.Severity.FIXABLE := by
  rw [decide_status_eq]
  cases hg : (l.map Engine.FailEntry.single).any (fun f => f.statusProp == some .GATING) with
  | true => simp [hg, (any_gating_iff l).mp hg]
  | false =>
    have hgn : ¬ ∃ f ∈ l, f.status = some Engine.WStatus.GATING := fun hE => by
      rw [(any_gating_iff l).mpr hE] at hg; exact Bool.true_eq_false.mp hg
    cases hf : (l.map Engine.FailEntry.single).any (fun f => f.severityProp == some .FATAL) with
    | true => simp [hg, hf, (any_fatal_iff l).mp hf]
    | false =>
      have hfn : ¬ ∃ f ∈ l, f.severity = Engine.Severity.FATAL := fun hE => by
        rw [(any_fatal_iff l).mpr hE] at hf; exact Bool.true_eq_false.mp hf
      cases hx : (l.map Engine.FailEntry.single).any (fun f => f.severityProp == some .FIXABLE) with
      | true => simp [hg, hf, hx, hgn, hfn, (any_fixable_iff l).mp hx]
      | false =>
        have hxn : ¬ ∃ f ∈ l, f.severity = Engine.Severity.FIXABLE := fun hE => by
          rw [(any_fixable_iff l).mpr hE] at hx; exact Bool.true_eq_false.mp hx
        simp [hg, hf, hx, hxn]

/-- Status is PASS exactly on the empty failure list. -/
lemma decide_status_pass (l : List Engine.RuleFailure) :
    (Engine.decide (l.map .single)).2 = .PASS ↔ l = [] := by
  rw [decide_status_eq]
  cases hg : (l.map Engine.FailEntry.single).any (fun f => f.statusProp == some .GATING) with
  | true =>
    obtain ⟨f, hf, _⟩ := (any_gating_iff l).mp hg
    simp only [hg, if_true]
    constructor
    · intro h; exact absurd h (by simp)
    · rintro rfl; exact absurd hf (by simp)
  | false =>
    cases hf : (l.map Engine.FailEntry.single).any (fun f => f.severityProp == some .FATAL) with
    | true =>
      obtain ⟨f, hfm, _⟩ := (any_fatal_iff l).mp hf
      simp only [hg, hf, Bool.false_eq_true, if_false, if_true]
      constructor
      · intro h; exact absurd h (by simp)
      · rintro rfl; exact absurd hfm (by simp)
    | false =>
      cases hx : (l.map Engine.FailEntry.single).any (fun f => f.severityProp == some .FIXABLE) with
      | true =>
        obtain ⟨f, hfm, _⟩ := (any_fixable_iff l).mp hx
        simp only [hg, hf, hx, Bool.false_eq_true, if_false, if_true]
        constructor
        · intro h; exact absurd h (by simp)
        · rintro rfl; exact absurd hfm (by simp)
      | false =>
        simp only [hg, hf, hx, Bool.false_eq_true, if_false]
        constructor
        · intro _
          by_contra hne
          rcases nonempty_has_severity l hne with h | h
          · rw [(any_fatal_iff l).mpr h] at hf; exact Bool.true_eq_false.mp hf
          · rw [(any_fixable_iff l).mpr h] at hx; exact Bool.true_eq_false.mp hx
        · intro _; trivial

/-- C1: for every failure list, `decide` returns status GATING if some
failure carries workflow status GATING, otherwise FATAL if some failure
has severity FATAL, otherwise FIXABLE if some failure has severity
FIXABLE, otherwise PASS (equivalently: exactly on the empty list); the
result does not depend on the order of the list (any permutation gives
the same output); and the verdict is "meets criteria" exactly when the
status is PASS. -/
theorem decide_precedence_and_order_independence
    (l l' : List Engine.RuleFailure) (hperm : l.Perm l') :
    ((Engine.decide (l.map .single)).2 = .GATING ↔
      ∃ f ∈ l, f.status = some Engine.WStatus.GATING) ∧
    ((Engine.decide (l.map .single)).2 = .FATAL ↔
      (¬ ∃ f ∈ l, f.status = some Engine.WStatus.GATING) ∧
      ∃ f ∈ l, f.severity = Engine.Severity.FATAL) ∧
    ((Engine.decide (l.map .single)).2 = .FIXABLE ↔
      (¬ ∃ f ∈ l, f.status = some Engine.WStatus.GATING) ∧
      (¬ ∃ f ∈ l, f.severity = Engine.Severity.FATAL) ∧
      ∃ f ∈ l, f.severity = Engine.Severity.FIXABLE) ∧
    ((Engine.decide (l.map .single)).2 = .PASS ↔ l = []) ∧
    Engine.decide (l.map .single) = Engine.decide (l'.map .single) ∧
    ((Engine.decide (l.map .single)).1 = .MEETS_SME_LENDER_CRITERIA ↔
      (Engine.decide (l.map .single)).2 = .PASS) := by
  refine ⟨decide_status_gating l, decide_status_fatal l, decide_status_fixable l,
    decide_status_pass l, decide_perm (hperm.map _), ?_⟩
  rw [decide_verdict_eq]
  split_ifs with h <;> simp [h]

end DecisionAggregator

section DecisionWitness

/-- A sample failure tagged with the GATING workflow status. -/
def gatingSampleFailure : Engine.RuleFailure :=
  { ruleId := "GATE-001", severity := .FIXABLE, status := some .GATING,
    category := "INPUT", reason := "Missing prerequisite data.",
    fix := "Provide required documents." }

/-- A sample failure of severity FATAL. -/
def fatalSampleFailure : Engine.RuleFailure :=
  { ruleId := "FIN-030", severity := .FATAL, category := "METRIC",
    reason := "LTGDV above mainstream lender maximum.",
    fix := "Increase equity, reduce total cost, or reduce leverage requested." }

/-- Witness for C1 at a concrete two-element failure list and its swap. -/
theorem decide_precedence_and_order_independence_witness :
    Engine.decide ([gatingSampleFailure, fatalSampleFailure].map .single) =
      Engine.decide ([fatalSampleFailure, gatingSampleFailure].map .single) ∧
    ((Engine.decide ([gatingSampleFailure, fatalSampleFailure].map .single)).2 = .GATING ↔
      ∃ f ∈ [gatingSampleFailure, fatalSampleFailure],
        f.status = some Engine.WStatus.GATING) :=
  ⟨(decide_precedence_and_order_independence _ _
      (List.Perm.swap fatalSampleFailure gatingSampleFailure [])).2.2.2.2.1,
   (decide_precedence_and_order_independence _ _
      (List.Perm.swap fatalSampleFailure gatingSampleFailure [])).1⟩

end DecisionWitness

section EvaluatorBugs

/-- Scenario B input from the evaluator test: planning stage PRE_APP,
all financial metrics compliant with `SME_MAINSTREAM_BANDS_V1`
(margin 0.25, LTGDV 0.6, LTC 0.75, contingency 0.08, pace 2.5). -/
def inputScenarioB : Engine.JsVal :=
  .obj [
    ("scheme", .obj [("units", .num (.val 4))]),
    ("planning", .obj [("stage", .str "PRE_APP")]),
    ("appraisal", .obj [
      ("gdv", .num (.val 1000000)),
      ("total_cost", .num (.val 800000)),
      ("equity", .num (.val 200000)),
      ("build_cost", .num (.val 500000)),
      ("contingency", .num (.val 40000))]),
    ("programme", .obj [("build_months", .num (.val 10))])
  ]

/-- The same input with planning stage FULL (the test's base input,
expected by the test suite to yield PASS with an empty failure list). -/
def inputScenarioA : Engine.JsVal :=
  .obj [
    ("scheme", .obj [("units", .num (.val 4))]),
    ("planning", .obj [("stage", .str "FULL")]),
    ("appraisal", .obj [
      ("gdv", .num (.val 1000000)),
      ("total_cost", .num (.val 800000)),
      ("equity", .num (.val 200000)),
      ("build_cost", .num (.val 500000)),
      ("contingency", .num (.val 40000))]),
    ("programme", .obj [("build_months", .num (.val 10))])
  ]

/-- Planning FULL but equity 50000 (LTGDV 0.75 and LTC 0.9375, both
FATAL violations) and contingency 10000 (2%, a FIXABLE violation). -/
def inputScenarioE : Engine.JsVal :=
  .obj [
    ("scheme", .obj [("units", .num (.val 4))]),
    ("planning", .obj [("stage", .str "FULL")]),
    ("appraisal", .obj [
      ("gdv", .num (.val 1000000)),
      ("total_cost", .num (.val 800000)),
      ("equity", .num (.val 50000)),
      ("build_cost", .num (.val 500000)),
      ("contingency", .num (.val 10000))]),
    ("programme", .obj [("build_months", .num (.val 10))])
  ]

/-- The failure `prereqPlanningStage` produces for a PRE_APP stage. -/
def preappGateFailure : Engine.RuleFailure :=
  { ruleId := "PREREQ_PLANNING_STAGE", severity := .FIXABLE, status := some .GATING,
    category := "INPUT",
    reason := "Planning stage insufficient for underwriting (need at least Outline, Full, or PiP with TDC).",
    fix := "Secure at least Outline consent or PiP with TDC before re-submission." }

/-- C2: on the PRE_APP input with all metrics compliant, the planning
gate DOES produce the PREREQ_PLANNING_STAGE gating failure, but
`evaluateDetailed` pushes that array as a single element of `failures`
(no spread), so `decide` never sees a GATING workflow status and the
result is status PASS with verdict MEETS_SME_LENDER_CRITERIA - not the
GATING / "not yet lendable" outcome the claim (and the repository's own
test) requires. -/
theorem evaluateDetailed_preapp_gating_lost :
    Engine.prereqPlanningStage inputScenarioB = [preappGateFailure] ∧
    (Engine.evaluateDetailed inputScenarioB Engine.SME_MAINSTREAM_BANDS_V1).result.status =
      .PASS ∧
    (Engine.evaluateDetailed inputScenarioB Engine.SME_MAINSTREAM_BANDS_V1).result.verdict =
      .MEETS_SME_LENDER_CRITERIA ∧
    (Engine.evaluateDetailed inputScenarioB Engine.SME_MAINSTREAM_BANDS_V1).result.failures =
      [.arr [preappGateFailure]] := by
  refine ⟨?_, ?_, ?_, ?_⟩ <;> with_unfolding_all rfl

/-- C4: on the fully compliant input the result has status PASS, yet
the returned failure list is NOT empty: it contains the empty array
pushed for the (passing) planning gate, so `failures.length` is 1 where
the claim (and the repository's own PASS test) requires 0. -/
theorem evaluateDetailed_pass_failures_nonempty :
    (Engine.evaluateDetailed inputScenarioA Engine.SME_MAINSTREAM_BANDS_V1).result.status =
      .PASS ∧
    (Engine.evaluateDetailed inputScenarioA Engine.SME_MAINSTREAM_BANDS_V1).result.failures =
      [.arr []] ∧
    (Engine.evaluateDetailed inputScenarioA Engine.SME_MAINSTREAM_BANDS_V1).result.failures ≠
      [] := by
  refine ⟨?_, ?_, ?_⟩
  · with_unfolding_all rfl
  · with_unfolding_all rfl
  · have h : (Engine.evaluateDetailed inputScenarioA
        Engine.SME_MAINSTREAM_BANDS_V1).result.failures = [.arr []] := by
      with_unfolding_all rfl
    rw [h]; simp

/-- The FIN-030 failure produced on `inputScenarioE` (LTGDV 3/4). -/
def fin030Failure : Engine.RuleFailure :=
  { ruleId := "FIN-030", severity := .FATAL, category := "METRIC",
    reason := "LTGDV above mainstream lender maximum.",
    fix := "Increase equity, reduce total cost, or reduce leverage requested.",
    evidence := [("metrics.ltgdv", .num (.val (3/4)))] }

/-- The FIN-031 failure produced on `inputScenarioE` (LTC 15/16). -/
def fin031Failure : Engine.RuleFailure :=
  { ruleId := "FIN-031", severity := .FATAL, category := "METRIC",
    reason := "LTC above mainstream lender maximum.",
    fix := "Increase equity or reduce total cost to meet leverage band.",
    evidence := [("metrics.ltc", .num (.val (15/16)))] }

/-- The FIN-021 failure produced on `inputScenarioE` (contingency 1/50). -/
def fin021Failure : Engine.RuleFailure :=
  { ruleId := "FIN-021", severity := .FIXABLE, category := "METRIC",
    reason := "Contingency allowance below mainstream expectations.",
    fix := "Increase contingency to at least 5–7% of build cost and re-run.",
    evidence := [("metrics.contingency_pct", .num (.val (1/50)))] }

/-- C8: on an input violating two FATAL rules and one FIXABLE rule, all
three metric failures ARE reported, in group order, and no later rule is
skipped; but the returned list is not the plain concatenation of the
three groups' failures: its first element is the (empty) planning-gate
ARRAY pushed as a single entry, so the list has four entries where the
groups produced three failures. -/
theorem evaluateDetailed_group_concatenation_broken :
    (Engine.evaluateDetailed inputScenarioE Engine.SME_MAINSTREAM_BANDS_V1).result.status =
      .FATAL ∧
    (Engine.evaluateDetailed inputScenarioE Engine.SME_MAINSTREAM_BANDS_V1).result.failures =
      [.arr [], .single fin030Failure, .single fin031Failure, .single fin021Failure] ∧
    (Engine.evaluateDetailed inputScenarioE Engine.SME_MAINSTREAM_BANDS_V1).result.failures ≠
      (Engine.prereqPlanningStage inputScenarioE ++
        [fin030Failure, fin031Failure, fin021Failure]).map .single := by
  refine ⟨?_, ?_, ?_⟩
  · with_unfolding_all rfl
  · with_unfolding_all rfl
  · have h : (Engine.evaluateDetailed inputScenarioE
        Engine.SME_MAINSTREAM_BANDS_V1).result.failures =
        [.arr [], .single fin030Failure, .single fin031Failure, .single fin021Failure] := by
      with_unfolding_all rfl
    have hp : Engine.prereqPlanningStage inputScenarioE = [] := by
      with_unfolding_all rfl
    rw [h, hp]
    simp

end EvaluatorBugs

section Thresholds

/-- C5: for every numeric value at the inspected path, `thresholdMin`
returns no failure exactly when the value is at least the limit, and
`thresholdMax` returns no failure exactly when the value is at most the
limit (so a value exactly at the bound passes, and any value strictly
beyond it fails). -/
theorem threshold_boundary_inclusive
    (ctx : Engine.JsVal) (field : String) (q lim : ℚ) (m : Engine.RuleMeta)
    (h : Engine.get ctx field = .num (.val q)) :
    (Engine.thresholdMin ctx field lim m = none ↔ lim ≤ q) ∧
    (Engine.thresholdMax ctx field lim m = none ↔ q ≤ lim) := by
  have h1 : Engine.thresholdMin ctx field lim m =
      if lim ≤ q then none else some (Engine.failure ctx field m) := by
    unfold Engine.thresholdMin; rw [h]
  have h2 : Engine.thresholdMax ctx field lim m =
      if q ≤ lim then none else some (Engine.failure ctx field m) := by
    unfold Engine.thresholdMax; rw [h]
  rw [h1, h2]
  constructor <;> split_ifs with hle <;> simp [hle]

/-- A sample context whose metric sits exactly at a bound. -/
def boundaryCtx : Engine.JsVal :=
  .obj [("metrics", .obj [("margin_on_cost", .num (.val (15/100)))])]

/-- Witness for C5: a value exactly equal to the limit passes both a
minimum and a maximum check. -/
theorem threshold_boundary_inclusive_witness :
    (Engine.thresholdMin boundaryCtx "metrics.margin_on_cost" (15/100)
        ⟨"FIN-014", .FATAL, "METRIC", "r", "f"⟩ = none ↔ (15/100 : ℚ) ≤ 15/100) ∧
    (Engine.thresholdMax boundaryCtx "metrics.margin_on_cost" (15/100)
        ⟨"FIN-014", .FATAL, "METRIC", "r", "f"⟩ = none ↔ (15/100 : ℚ) ≤ 15/100) :=
  threshold_boundary_inclusive boundaryCtx "metrics.margin_on_cost" (15/100) (15/100)
    ⟨"FIN-014", .FATAL, "METRIC", "r", "f"⟩ rfl

/-- True exactly on a finite JS number (`typeof v === 'number'` and not
NaN); every other value fails an inclusive threshold comparison. -/
def isFiniteNumber : Engine.JsVal → Bool
  | .num (.val _) => true
  | _ => false

/-- The metadata of the FIN-014 margin rule. -/
def fin014Meta : Engine.RuleMeta :=
  ⟨"FIN-014", .FATAL, "METRIC", "Margin on cost below mainstream lender minimum.",
   "Increase GDV, reduce costs, or inject more equity."⟩

/-- An input with `total_cost = 0` (and otherwise plausible numbers). -/
def inputZeroCost : Engine.JsVal :=
  .obj [
    ("scheme", .obj [("units", .num (.val 4))]),
    ("planning", .obj [("stage", .str "FULL")]),
    ("appraisal", .obj [
      ("gdv", .num (.val 1000000)),
      ("total_cost", .num (.val 0)),
      ("equity", .num (.val 0)),
      ("build_cost", .num (.val 500000)),
      ("contingency", .num (.val 40000))]),
    ("programme", .obj [("build_months", .num (.val 10))])
  ]

/-- The evaluation context `evaluateDetailed` builds for `inputZeroCost`. -/
def zeroCostCtx : Engine.JsVal :=
  .obj [("input", inputZeroCost), ("metrics", Engine.computeMetrics inputZeroCost),
        ("bands", Engine.bandsToJs Engine.SME_MAINSTREAM_BANDS_V1)]

/-- The failure the margin rule produces on the zero-cost input: the
evidence snapshot records the `null` metric value. -/
def fin014NullFailure : Engine.RuleFailure :=
  { ruleId := "FIN-014", severity := .FATAL, category := "METRIC",
    reason := "Margin on cost below mainstream lender minimum.",
    fix := "Increase GDV, reduce costs, or inject more equity.",
    evidence := [("metrics.margin_on_cost", .null)] }

/-- C6: whenever the value at the inspected path is not a finite number
(null, undefined, NaN, a string, a boolean, an array or an object),
`thresholdMin` and `thresholdMax` both return a rule failure rather
than skipping the rule (both being total functions, no fault is ever
raised); in particular an input with `total_cost = 0` makes
`computeMetrics` yield `margin_on_cost = null`, and the margin rule
then produces the FIN-014 failure with the null value as evidence. -/
theorem threshold_nonnumeric_fails :
    (∀ (ctx : Engine.JsVal) (field : String) (lim : ℚ) (m : Engine.RuleMeta),
      isFiniteNumber (Engine.get ctx field) = false →
      (Engine.thresholdMin ctx field lim m).isSome = true ∧
      (Engine.thresholdMax ctx field lim m).isSome = true) ∧
    Engine.getProp (Engine.computeMetrics inputZeroCost) "margin_on_cost" = .null ∧
    Engine.thresholdMin zeroCostCtx "metrics.margin_on_cost"
      Engine.SME_MAINSTREAM_BANDS_V1.min_margin_on_cost fin014Meta =
      some fin014NullFailure := by
  refine ⟨?_, by with_unfolding_all rfl, by with_unfolding_all rfl⟩
  intro ctx field lim m h
  cases hv : Engine.get ctx field with
  | num n =>
    cases n with
    | nan => constructor <;> simp [Engine.thresholdMin, Engine.thresholdMax, hv]
    | val q => rw [hv] at h; exact absurd h (by simp [isFiniteNumber])
  | undefined => constructor <;> simp [Engine.thresholdMin, Engine.thresholdMax, hv]
  | null => constructor <;> simp [Engine.thresholdMin, Engine.thresholdMax, hv]
  | bool b => constructor <;> simp [Engine.thresholdMin, Engine.thresholdMax, hv]
  | str s => constructor <;> simp [Engine.thresholdMin, Engine.thresholdMax, hv]
  | arr es => constructor <;> simp [Engine.thresholdMin, Engine.thresholdMax, hv]
  | obj fs => constructor <;> simp [Engine.thresholdMin, Engine.thresholdMax, hv]

/-- Witness for C6: a `null` metric value makes both threshold checks
produce a failure. -/
theorem threshold_nonnumeric_fails_witness :
    (Engine.thresholdMin (Engine.JsVal.obj [("m", .null)]) "m" 5 fin014Meta).isSome = true ∧
    (Engine.thresholdMax (Engine.JsVal.obj [("m", .null)]) "m" 5 fin014Meta).isSome = true :=
  threshold_nonnumeric_fails.1 (.obj [("m", .null)]) "m" 5 fin014Meta rfl

end Thresholds

section Metrics

/-- An input whose `gdv` field holds a non-numeric string. -/
def inputNonNumericGdv : Engine.JsVal :=
  .obj [("appraisal", .obj [("gdv", .str "abc"), ("total_cost", .num (.val 100))])]

/-- C7 counterexample: a present non-numeric source field is NOT
treated as zero - `Number("abc")` is NaN, and the NaN propagates into
`margin_on_cost` (were the field treated as zero, the metric would be
`(0 - 100) / 100 = -1`). So a metric value CAN be NaN. -/
theorem computeMetrics_nan_counterexample :
    Engine.getProp (Engine.computeMetrics inputNonNumericGdv) "margin_on_cost" =
      .num .nan ∧
    Engine.getProp (Engine.computeMetrics inputNonNumericGdv) "margin_on_cost" ≠
      .num (.val (-1)) := by
  constructor
  · with_unfolding_all rfl
  · have h : Engine.getProp (Engine.computeMetrics inputNonNumericGdv) "margin_on_cost" =
        .num .nan := by with_unfolding_all rfl
    rw [h]; simp

/-- A source field that is absent (`undefined`), `null`, or a finite
number - the shapes for which the claim's "defaults to zero" reading
is accurate. -/
def okNumField (v : Engine.JsVal) : Prop :=
  v = .undefined ∨ v = .null ∨ ∃ q : ℚ, v = .num (.val q)

/-- The numeric coercion `Number(v ?? 0)` restricted to `okNumField`
values: absent and null become 0, a number stays itself. -/
def coerceZero : Engine.JsVal → ℚ
  | .num (.val q) => q
  | _ => 0

/-- Builds the deal-input object read by `computeMetrics` from its
seven source fields. -/
def mkDealInput (g tc e bc c u bm : Engine.JsVal) : Engine.JsVal :=
  .obj [
    ("appraisal", .obj [("gdv", g), ("total_cost", tc), ("equity", e),
                        ("build_cost", bc), ("contingency", c)]),
    ("scheme", .obj [("units", u)]),
    ("programme", .obj [("build_months", bm)])
  ]

/-- On an `okNumField` value, the source's read-and-coerce pipeline
yields exactly the `coerceZero` rational. -/
lemma toNumber_ok (v : Engine.JsVal) (h : okNumField v) :
    Engine.toNumber (Engine.nullish v (.num (.val 0))) = .val (coerceZero v) := by
  rcases h with rfl | rfl | ⟨q, rfl⟩ <;> rfl

/-- A guarded ratio reduces to the rational division under the
positivity guard and to `null` otherwise. -/
lemma metric_div (a b : ℚ) :
    (if Engine.jgt0 (.val b) then Engine.JsVal.num (Engine.jdiv (.val a) (.val b))
     else .null) =
      (if 0 < b then Engine.JsVal.num (.val (a / b)) else .null) := by
  by_cases h : 0 < b
  · simp [Engine.jgt0, Engine.jdiv, h, h.ne']
  · simp [Engine.jgt0, Engine.jdiv, h]

/-- C7 (amended): `computeMetrics` returns exactly the six named
metrics; when every source field is absent, null, or numeric (absent
and null coercing to zero), each metric is the stated formula whenever
its denominator is positive and `null` otherwise - in particular a
zero denominator yields `null`, never a division by zero and never a
NaN. (A present non-numeric field instead follows JS `Number` coercion
and can make the metric NaN, per the counterexample.) -/
theorem computeMetrics_formulas (g tc e bc c u bm : Engine.JsVal)
    (hg : okNumField g) (htc : okNumField tc) (he : okNumField e)
    (hbc : okNumField bc) (hc : okNumField c) (hu : okNumField u)
    (hbm : okNumField bm) :
    Engine.computeMetrics (mkDealInput g tc e bc c u bm) =
      .obj [
        ("margin_on_cost", if 0 < coerceZero tc then
            .num (.val ((coerceZero g - coerceZero tc) / coerceZero tc)) else .null),
        ("margin_on_gdv", if 0 < coerceZero g then
            .num (.val ((coerceZero g - coerceZero tc) / coerceZero g)) else .null),
        ("ltc", if 0 < coerceZero tc then
            .num (.val ((coerceZero tc - coerceZero e) / coerceZero tc)) else .null),
        ("ltgdv", if 0 < coerceZero g then
            .num (.val ((coerceZero tc - coerceZero e) / coerceZero g)) else .null),
        ("contingency_pct", if 0 < coerceZero bc then
            .num (.val (coerceZero c / coerceZero bc)) else .null),
        ("build_months_per_unit", if 0 < coerceZero u then
            .num (.val (coerceZero bm / coerceZero u)) else .null)
      ] := by
  have rg : Engine.optChain (Engine.optChain (mkDealInput g tc e bc c u bm) "appraisal")
      "gdv" = g := rfl
  have rtc : Engine.optChain (Engine.optChain (mkDealInput g tc e bc c u bm) "appraisal")
      "total_cost" = tc := rfl
  have re : Engine.optChain (Engine.optChain (mkDealInput g tc e bc c u bm) "appraisal")
      "equity" = e := rfl
  have rbc : Engine.optChain (Engine.optChain (mkDealInput g tc e bc c u bm) "appraisal")
      "build_cost" = bc := rfl
  have rc : Engine.optChain (Engine.optChain (mkDealInput g tc e bc c u bm) "appraisal")
      "contingency" = c := rfl
  have ru : Engine.optChain (Engine.optChain (mkDealInput g tc e bc c u bm) "scheme")
      "units" = u := rfl
  have rbm : Engine.optChain (Engine.optChain (mkDealInput g tc e bc c u bm) "programme")
      "build_months" = bm := rfl
  simp only [Engine.computeMetrics, rg, rtc, re, rbc, rc, ru, rbm,
    toNumber_ok g hg, toNumber_ok tc htc, toNumber_ok e he, toNumber_ok bc hbc,
    toNumber_ok c hc, toNumber_ok u hu, toNumber_ok bm hbm,
    Engine.jsub, metric_div]

/-- Witness for C7's amended theorem: a concrete input with a null
equity field, an absent build-cost field, and numeric remaining fields. -/
theorem computeMetrics_formulas_witness :
    Engine.computeMetrics (mkDealInput (.num (.val 1000000)) (.num (.val 800000)) .null
        .undefined (.num (.val 40000)) (.num (.val 4)) (.num (.val 10))) =
      .obj [
        ("margin_on_cost", .num (.val (1/4))),
        ("margin_on_gdv", .num (.val (1/5))),
        ("ltc", .num (.val 1)),
        ("ltgdv", .num (.val (4/5))),
        ("contingency_pct", .null),
        ("build_months_per_unit", .num (.val (5/2)))
      ] := by
  have h := computeMetrics_formulas (.num (.val 1000000)) (.num (.val 800000)) .null
    .undefined (.num (.val 40000)) (.num (.val 4)) (.num (.val 10))
    (Or.inr (Or.inr ⟨1000000, rfl⟩)) (Or.inr (Or.inr ⟨800000, rfl⟩))
    (Or.inr (Or.inl rfl)) (Or.inl rfl) (Or.inr (Or.inr ⟨40000, rfl⟩))
    (Or.inr (Or.inr ⟨4, rfl⟩)) (Or.inr (Or.inr ⟨10, rfl⟩))
  rw [h]
  norm_num [coerceZero]

end Metrics

section Catalog

/-- `runRules` produces exactly one result per registered rule. -/
lemma runRules_results_length (context : Sme.RuleContext) :
    ∀ rules : List Sme.Rule, (Sme.runRules context rules).1.length = rules.length := by
  intro rules
  induction rules with
  | nil => rfl
  | cons r rest ih => simp [Sme.runRules, ih]

/-- Every fix `runRules` emits comes from a rule in the list whose
evaluation failed. -/
lemma mem_runRules_fixes (context : Sme.RuleContext) :
    ∀ (rules : List Sme.Rule) (fx : Sme.Fix), fx ∈ (Sme.runRules context rules).2 →
      ∃ r ∈ rules, fx.ruleId = r.id ∧ (r.evaluate context).passed = false := by
  intro rules
  induction rules with
  | nil => intro fx h; simp [Sme.runRules] at h
  | cons r rest ih =>
    intro fx h
    simp only [Sme.runRules, List.mem_append] at h
    rcases h with h | h
    · rcases hp : (r.evaluate context).passed with _ | _ <;>
        rcases hf : (r.evaluate context).fix with _ | f <;>
        rw [hp, hf] at h <;> simp at h
      exact ⟨r, by simp, by rw [h], hp⟩
    · obtain ⟨r', hr', hid, hfail⟩ := ih fx h
      exact ⟨r', by simp [hr'], hid, hfail⟩

/-- At most one fix is emitted per failed rule. -/
lemma runRules_fixes_le (context : Sme.RuleContext) :
    ∀ rules : List Sme.Rule,
      (Sme.runRules context rules).2.length ≤
        ((Sme.runRules context rules).1.filter (fun r => !r.passed)).length := by
  intro rules
  induction rules with
  | nil => simp [Sme.runRules]
  | cons r rest ih =>
    simp only [Sme.runRules, List.length_append, List.filter_cons]
    rcases hp : (r.evaluate context).passed with _ | _ <;>
      rcases hf : (r.evaluate context).fix with _ | f <;>
      simp [hp, hf] <;> omega

/-- Splitting a list by a predicate preserves its length. -/
lemma length_filter_not_add {α : Type} (p : α → Bool) (l : List α) :
    (l.filter fun a => !p a).length + (l.filter p).length = l.length := by
  induction l with
  | nil => rfl
  | cons a t ih =>
    rcases h : p a with _ | _ <;> simp [List.filter_cons, h] <;> omega

/-- C10: for every rule collection and scheme, the summary of
`AssessmentEngine.assess` counts one entry per registered rule,
`passedRules + failedRules = totalRules`, and the emitted fix list is
never longer than `failedRules` (each fix comes from a failed rule
that attached one). -/
theorem assess_summary_invariants (rules : List Sme.Rule) (scheme : Sme.SchemeData) :
    (Sme.assess rules scheme).summary.totalRules = rules.length ∧
    (Sme.assess rules scheme).summary.passedRules +
        (Sme.assess rules scheme).summary.failedRules =
      (Sme.assess rules scheme).summary.totalRules ∧
    (Sme.assess rules scheme).fixes.length ≤ (Sme.assess rules scheme).summary.failedRules := by
  have htot : (Sme.assess rules scheme).summary.totalRules =
      (Sme.runRules { scheme := scheme } rules).1.length := rfl
  have hpass : (Sme.assess rules scheme).summary.passedRules =
      ((Sme.runRules { scheme := scheme } rules).1.filter (fun r => r.passed)).length := rfl
  have hfail : (Sme.assess rules scheme).summary.failedRules =
      (Sme.runRules { scheme := scheme } rules).1.length -
        ((Sme.runRules { scheme := scheme } rules).1.filter (fun r => r.passed)).length := rfl
  have hfix : (Sme.assess rules scheme).fixes.length =
      (Sme.runRules { scheme := scheme } rules).2.length := by
    have : (Sme.assess rules scheme).fixes =
        ((Sme.runRules { scheme := scheme } rules).2).mergeSort
          (fun a b => decide (Sme.severityOrder a.severity ≤ Sme.severityOrder b.severity)) :=
      rfl
    rw [this, List.length_mergeSort]
  have hle := List.length_filter_le (fun r => r.passed)
    (Sme.runRules { scheme := scheme } rules).1
  have hsplit := length_filter_not_add (fun r => r.passed)
    (Sme.runRules { scheme := scheme } rules).1
  have hfle := runRules_fixes_le { scheme := scheme } rules
  refine ⟨by rw [htot, runRules_results_length], ?_, ?_⟩
  · rw [hpass, hfail, htot]; omega
  · rw [hfix, hfail]; omega

/-- A scheme with `totalCost` 1000000 and `gdv` 1100000: its
GDV-to-cost ratio is 110% (< 120%), so the required rule FIN-004 fails
with a MAJOR fix, while every other rule passes. -/
def schemeC3 : Sme.SchemeData :=
  { schemeId := "SCH-C3",
    info := { name := "Test Development", type := "residential", location := "Test Location" },
    financials := { totalCost := 1000000, landCost := 300000, buildCost := 700000,
                    gdv := 1100000, equity := 300000, loanAmount := 700000 },
    development := { units := 4, squareFeet := 8000, constructionPeriod := 18 },
    developer := { name := "Test Developer", experienceYears := 5, completedProjects := 3,
                   defaultHistory := false } }

/-- C3: the verdict of `assess` is NOT "no required rule failed with a
fix": on `schemeC3` the required rule FIN-004 fails and attaches a
(MAJOR) fix, yet the verdict is APPROVED, because the code derives the
verdict only from whether some emitted fix has CRITICAL severity - in
direct contradiction with its own comment ("APPROVED only if all
required rules pass") and with the claim. -/
theorem assess_required_failure_still_approved :
    (Sme.assess Sme.smeRules schemeC3).verdict = .APPROVED ∧
    Sme.FIN004 ∈ Sme.smeRules ∧
    Sme.FIN004.required = true ∧
    (Sme.FIN004.evaluate { scheme := schemeC3 }).passed = false ∧
    (Sme.FIN004.evaluate { scheme := schemeC3 }).fix.isSome = true := by
  refine ⟨?_, ?_, rfl, ?_, ?_⟩
  · with_unfolding_all rfl
  · simp [Sme.smeRules]
  · with_unfolding_all rfl
  · with_unfolding_all rfl

/-- C9: whenever the optional AI document-quality score is absent
(no `aiScores` object, or no `documentQuality` field), rule DOC-001
passes automatically - it returns `passed` with no fix - and the
assessment's fix list contains no DOC-001 entry. -/
theorem doc001_absent_auto_pass (scheme : Sme.SchemeData)
    (h : scheme.aiScores.bind Sme.AiScores.documentQuality = none) :
    (Sme.DOC001.evaluate { scheme := scheme }).passed = true ∧
    (Sme.DOC001.evaluate { scheme := scheme }).fix = none ∧
    ∀ fx ∈ (Sme.assess Sme.smeRules scheme).fixes, fx.ruleId ≠ "DOC-001" := by
  have hpass : Sme.DOC001.evaluate { scheme := scheme } =
      { ruleId := "DOC-001", passed := true } := by
    simp only [Sme.DOC001]
    rw [h]
  refine ⟨by rw [hpass], by rw [hpass], ?_⟩
  intro fx hfx
  have hmem : fx ∈ (Sme.runRules { scheme := scheme } Sme.smeRules).2 := by
    have heq : (Sme.assess Sme.smeRules scheme).fixes =
        ((Sme.runRules { scheme := scheme } Sme.smeRules).2).mergeSort
          (fun a b => decide (Sme.severityOrder a.severity ≤ Sme.severityOrder b.severity)) :=
      rfl
    rw [heq] at hfx
    exact List.mem_mergeSort.mp hfx
  obtain ⟨r, hr, hid, hfail⟩ := mem_runRules_fixes { scheme := scheme } Sme.smeRules fx hmem
  simp only [Sme.smeRules, List.mem_cons, List.not_mem_nil, or_false] at hr
  rcases hr with rfl | rfl | rfl | rfl | rfl | rfl | rfl | rfl | rfl | rfl
  · rw [hid]; decide
  · rw [hid]; decide
  · rw [hid]; decide
  · rw [hid]; decide
  · rw [hid]; decide
  · rw [hid]; decide
  · rw [hid]; decide
  · rw [hid]; decide
  · rw [hid]; decide
  · rw [hpass] at hfail; exact absurd hfail (by simp)

/-- A fully compliant scheme carrying no AI scores at all. -/
def schemeC9 : Sme.SchemeData :=
  { schemeId := "SCH-C9",
    info := { name := "Test Development", type := "residential", location := "Test Location" },
    financials := { totalCost := 1000000, landCost := 300000, buildCost := 700000,
                    gdv := 1400000, equity := 300000, loanAmount := 700000 },
    development := { units := 4, squareFeet := 8000, constructionPeriod := 18 },
    developer := { name := "Test Developer", experienceYears := 5, completedProjects := 3,
                   defaultHistory := false } }

/-- Witness for C9: on a concrete scheme without AI scores, DOC-001
passes with no fix. -/
theorem doc001_absent_auto_pass_witness :
    (Sme.DOC001.evaluate { scheme := schemeC9 }).passed = true ∧
    (Sme.DOC001.evaluate { scheme := schemeC9 }).fix = none :=
  ⟨(doc001_absent_auto_pass schemeC9 rfl).1, (doc001_absent_auto_pass schemeC9 rfl).2.1⟩

end Catalog
